import Mathlib

/-!
Shallow embedding of `napari_btrack/track.py` (the btrack napari plugin).

The repository's own code is UI wiring: it synchronises widget values with a
tracker configuration object and invokes an external tracking library.  We
model:

* the configuration data (sigmas, tracker config with motion and hypothesis
  models) -- the concrete classes live in `napari_btrack/config.py` and the
  external `btrack` library; their record shape is modelled from the spec and
  from the field accesses in `track.py`;
* the widget container as a record of named widget values, modelled from the
  widget accesses in `track.py`;
* the two sync functions `update_config_from_widgets` and
  `update_widgets_from_config`, translated line by line from `track.py`
  (each returns the pair of both objects so frame effects are visible);
* `run_tracker` as a function that threads an explicit external-library
  oracle and records the trace of external calls;
* the five GUI callbacks (`select_config`, `run`, `restore_defaults`,
  `save_config_to_json`, `load_config_from_json`) as explicit state
  transformers on a plugin state.

Numeric widget/config values are modelled as rationals; copies are verbatim
in the source, so the scalar type does not matter to any claim.
-/

/-- Scaling factors paired with a tracker config.
Modelled from the spec: `UnscaledTrackerConfig` (in `napari_btrack/config.py`,
absent from the sources given) "pairs a TrackerConfig with scaling factors
(sigmas)"; the field names `P`, `G`, `R` are those read in `track.py`. -/
structure Sigmas where
  P : ℚ
  G : ℚ
  R : ℚ
deriving Repr, DecidableEq

/-- The Bayesian update method enumeration of the external `btrack` library
(`EXACT = 0`, `APPROXIMATE = 1`, `CUDA = 2`). -/
inductive BayesianUpdates where
  | EXACT
  | APPROXIMATE
  | CUDA
deriving Repr, DecidableEq

/-- The `.name` of an enum member, as used by
`container.update_method_selector.value = config.update_method.name`. -/
def BayesianUpdates.name : BayesianUpdates → String
  | .EXACT => "EXACT"
  | .APPROXIMATE => "APPROXIMATE"
  | .CUDA => "CUDA"

/-- Coercion of an integer combobox index into the enum, as performed by the
pydantic assignment `config.update_method = ...currentIndex()`.  Indices
other than 0, 1, 2 would raise in the source; the total default is never
reached under the combobox invariant (value among the choices). -/
def BayesianUpdates.ofIndex : ℕ → BayesianUpdates
  | 0 => .EXACT
  | 1 => .APPROXIMATE
  | _ => .CUDA

/-- Motion-model fields accessed in `track.py`. -/
structure MotionModel where
  accuracy : ℚ
  max_lost : ℚ
deriving Repr, DecidableEq

/-- Hypothesis-model fields accessed in `track.py`. -/
structure HypothesisModel where
  hypotheses : List String
  lambda_time : ℚ
  lambda_dist : ℚ
  lambda_link : ℚ
  lambda_branch : ℚ
  theta_dist : ℚ
  theta_time : ℚ
  dist_thresh : ℚ
  time_thresh : ℚ
  apop_thresh : ℚ
  segmentation_miss_rate : ℚ
deriving Repr, DecidableEq

/-- The external library's `TrackerConfig`, restricted to the fields the
plugin reads or writes. -/
structure TrackerConfig where
  update_method : BayesianUpdates
  max_search_radius : ℚ
  motion_model : MotionModel
  hypothesis_model : HypothesisModel
deriving Repr, DecidableEq

/-- Modelled from the spec: `UnscaledTrackerConfig` pairs a `TrackerConfig`
with scaling factors; `filename` is the path it was loaded from, read by
`restore_defaults`. -/
structure UnscaledTrackerConfig where
  filename : String
  sigmas : Sigmas
  tracker_config : TrackerConfig
deriving Repr, DecidableEq

/-- Modelled from the spec: the result of `UnscaledTrackerConfig.scale_config`,
a `TrackerConfig` with the sigmas applied.  No claim inspects its internals,
so it is modelled as the pair of its inputs. -/
structure ScaledTrackerConfig where
  tracker_config : TrackerConfig
  sigmas : Sigmas
deriving Repr, DecidableEq

/-- Modelled from the spec: scaling an `UnscaledTrackerConfig` produces the
scaled config determined by its tracker config and sigmas. -/
def UnscaledTrackerConfig.scale_config (u : UnscaledTrackerConfig) : ScaledTrackerConfig :=
  ⟨u.tracker_config, u.sigmas⟩

/-- A napari segmentation layer: its `data`, its `level_shapes` (the shape of
each resolution level), and its `name` (the `str()` of a napari layer used in
the f-string `"{segmentation}_btrack"`). -/
structure Segmentation (SegData : Type) where
  name : String
  data : SegData
  level_shapes : List (List ℕ)
deriving Repr, DecidableEq

/-- The widget container built by `_create_widgets`, restricted to the widget
values accessed in `track.py`.  The concrete widget constructors live in
`napari_btrack/widgets.py` (absent from the sources given); the field set is
exactly the set of widget accesses in `track.py`.  The update-method selector
is a combobox: it stores its current string value, and its Qt `currentIndex`
is the index of that value in the fixed choices list. -/
structure Container (SegData : Type) where
  segmentation_selector : Segmentation SegData
  config_selector_value : String
  config_selector_choices : List String
  update_method_selector : String
  P_sigma : ℚ
  G_sigma : ℚ
  R_sigma : ℚ
  max_search_radius : ℚ
  accuracy : ℚ
  max_lost : ℚ
  P_FP : Bool
  P_init : Bool
  P_term : Bool
  P_link : Bool
  P_branch : Bool
  P_dead : Bool
  P_merge : Bool
  lambda_time : ℚ
  lambda_dist : ℚ
  lambda_link : ℚ
  lambda_branch : ℚ
  theta_dist : ℚ
  theta_time : ℚ
  dist_thresh : ℚ
  time_thresh : ℚ
  apop_thresh : ℚ
  segmentation_miss_rate : ℚ
deriving Repr, DecidableEq

/-- Modelled from the spec: the choices of the update-method combobox created
in `napari_btrack/widgets.py` (absent from the sources given), matching the
members of the external library's `BayesianUpdates` enum in index order. -/
def update_method_choices : List String :=
  ["EXACT", "APPROXIMATE", "CUDA"]

/-- `container.update_method_selector._widget._qwidget.currentIndex()`: the
index of the combobox's current value among its choices. -/
def Container.update_method_currentIndex {S : Type} (c : Container S) : ℕ :=
  update_method_choices.indexOf c.update_method_selector

/-- The literal list of hypothesis names iterated over in
`update_config_from_widgets` and `update_widgets_from_config`. -/
def hypothesis_names : List String :=
  ["P_FP", "P_init", "P_term", "P_link", "P_branch", "P_dead", "P_merge"]

/-- `container[hypothesis].value` for the seven hypothesis checkboxes
(string indexing into the container; other names would raise in the source). -/
def Container.hypothesisValue {S : Type} (c : Container S) : String → Bool
  | "P_FP" => c.P_FP
  | "P_init" => c.P_init
  | "P_term" => c.P_term
  | "P_link" => c.P_link
  | "P_branch" => c.P_branch
  | "P_dead" => c.P_dead
  | "P_merge" => c.P_merge
  | _ => false

/-- The loop of `update_config_from_widgets` (lines 80-92): start from the
empty list and append each of the seven names whose checkbox is checked, in
the order of `hypothesis_names` (loop unrolled over the literal list). -/
def collect_hypotheses {S : Type} (container : Container S) : List String :=
  let hypotheses : List String := []
  let hypotheses := if container.P_FP then hypotheses ++ ["P_FP"] else hypotheses
  let hypotheses := if container.P_init then hypotheses ++ ["P_init"] else hypotheses
  let hypotheses := if container.P_term then hypotheses ++ ["P_term"] else hypotheses
  let hypotheses := if container.P_link then hypotheses ++ ["P_link"] else hypotheses
  let hypotheses := if container.P_branch then hypotheses ++ ["P_branch"] else hypotheses
  let hypotheses := if container.P_dead then hypotheses ++ ["P_dead"] else hypotheses
  let hypotheses := if container.P_merge then hypotheses ++ ["P_merge"] else hypotheses
  hypotheses

/-- `update_config_from_widgets` (`track.py` lines 58-105): copy the current
widget values into the config.  The source mutates only `unscaled_config`;
both objects are returned so the frame effect is explicit. -/
def update_config_from_widgets {S : Type} (unscaled_config : UnscaledTrackerConfig)
    (container : Container S) : UnscaledTrackerConfig × Container S :=
  let sigmas := unscaled_config.sigmas
  let sigmas := { sigmas with
    P := container.P_sigma
    G := container.G_sigma
    R := container.R_sigma }
  let config := unscaled_config.tracker_config
  let config := { config with
    update_method := BayesianUpdates.ofIndex container.update_method_currentIndex
    max_search_radius := container.max_search_radius }
  let motion_model := config.motion_model
  let motion_model := { motion_model with
    accuracy := container.accuracy
    max_lost := container.max_lost }
  let hypothesis_model := config.hypothesis_model
  let hypothesis_model := { hypothesis_model with
    hypotheses := collect_hypotheses container
    lambda_time := container.lambda_time
    lambda_dist := container.lambda_dist
    lambda_link := container.lambda_link
    lambda_branch := container.lambda_branch
    theta_dist := container.theta_dist
    theta_time := container.theta_time
    dist_thresh := container.dist_thresh
    time_thresh := container.time_thresh
    apop_thresh := container.apop_thresh
    segmentation_miss_rate := container.segmentation_miss_rate }
  let config := { config with
    motion_model := motion_model
    hypothesis_model := hypothesis_model }
  ({ unscaled_config with sigmas := sigmas, tracker_config := config }, container)

/-- `update_widgets_from_config` (`track.py` lines 108-156): copy the config
values into the widgets.  The checkbox loop (lines 131-141) is unrolled over
the literal `hypothesis_names` list; `is_checked` is membership of the name
in `hypothesis_model.hypotheses`.  The source mutates only `container`; both
objects are returned so the frame effect is explicit. -/
def update_widgets_from_config {S : Type} (unscaled_config : UnscaledTrackerConfig)
    (container : Container S) : UnscaledTrackerConfig × Container S :=
  let sigmas := unscaled_config.sigmas
  let container := { container with
    P_sigma := sigmas.P
    G_sigma := sigmas.G
    R_sigma := sigmas.R }
  let config := unscaled_config.tracker_config
  let container := { container with
    update_method_selector := config.update_method.name
    max_search_radius := config.max_search_radius }
  let motion_model := config.motion_model
  let container := { container with
    accuracy := motion_model.accuracy
    max_lost := motion_model.max_lost }
  let hypothesis_model := config.hypothesis_model
  let container := { container with
    P_FP := hypothesis_model.hypotheses.contains "P_FP"
    P_init := hypothesis_model.hypotheses.contains "P_init"
    P_term := hypothesis_model.hypotheses.contains "P_term"
    P_link := hypothesis_model.hypotheses.contains "P_link"
    P_branch := hypothesis_model.hypotheses.contains "P_branch"
    P_dead := hypothesis_model.hypotheses.contains "P_dead"
    P_merge := hypothesis_model.hypotheses.contains "P_merge" }
  let container := { container with
    lambda_time := hypothesis_model.lambda_time
    lambda_dist := hypothesis_model.lambda_dist
    lambda_link := hypothesis_model.lambda_link
    lambda_branch := hypothesis_model.lambda_branch
    theta_dist := hypothesis_model.theta_dist
    theta_time := hypothesis_model.theta_time
    dist_thresh := hypothesis_model.dist_thresh
    time_thresh := hypothesis_model.time_thresh
    apop_thresh := hypothesis_model.apop_thresh
    segmentation_miss_rate := hypothesis_model.segmentation_miss_rate }
  (unscaled_config, container)

/-- The external calls `run_tracker` makes on the tracker / library. -/
inductive TrackerEvent where
  | configure
  | append
  | setVolume
  | trackInteractive
  | optimize
  | toNapari
deriving Repr, DecidableEq

/-- The externally visible state of a `btrack.BayesianTracker`: the fields
`run_tracker` assigns (`configure`, appended objects, `volume`), plus an
opaque internal state advanced by the library's own computation. -/
structure TrackerState (Obj Internal : Type) where
  config : Option ScaledTrackerConfig
  objects : List Obj
  volume : List (ℕ × ℕ)
  internal : Internal
deriving Repr, DecidableEq

/-- Oracle for the external `btrack` library: the results of the library's own
computations, which this repository does not implement. -/
structure BTrackLib (SegData Obj Internal Res : Type) where
  init_internal : Internal
  segmentation_to_objects : SegData → List Obj
  track_interactive : ℕ → TrackerState Obj Internal → Internal
  optimize : TrackerState Obj Internal → Internal
  to_napari : ℕ → TrackerState Obj Internal → Res

/-- `run_tracker` (`track.py` lines 26-55): configure the tracker, append the
segmented objects, set the volume (first entry of `level_shapes[0]` dropped,
rest reversed), track interactively with step size 100, optimize, and export
with `to_napari(ndim=2)`.  Returns the `(data, properties, graph)` result,
the final tracker state, and the trace of external calls in order. -/
def run_tracker {SegData Obj Internal Res : Type}
    (lib : BTrackLib SegData Obj Internal Res)
    (segmentation : Segmentation SegData) (tracker_config : ScaledTrackerConfig) :
    Res × TrackerState Obj Internal × List TrackerEvent :=
  let tracker : TrackerState Obj Internal := ⟨none, [], [], lib.init_internal⟩
  let events : List TrackerEvent := []
  let tracker := { tracker with config := some tracker_config }
  let events := events ++ [.configure]
  let segmented_objects := lib.segmentation_to_objects segmentation.data
  let tracker := { tracker with objects := segmented_objects }
  let events := events ++ [.append]
  let segmentation_size := segmentation.level_shapes.headD []
  let tracker := { tracker with
    volume := ((segmentation_size.drop 1).reverse).map (fun s => (0, s)) }
  let events := events ++ [.setVolume]
  let tracker := { tracker with internal := lib.track_interactive 100 tracker }
  let events := events ++ [.trackInteractive]
  let tracker := { tracker with internal := lib.optimize tracker }
  let events := events ++ [.optimize]
  let res := lib.to_napari 2 tracker
  let events := events ++ [.toNapari]
  (res, tracker, events)

/-- Modelled from the spec: the config store `TrackerConfigs` of
`napari_btrack/config.py` (absent from the sources given) "holds named
parameter presets" and tracks the name of the currently selected one. -/
structure TrackerConfigs where
  configs : List (String × UnscaledTrackerConfig)
  current_config : String
deriving Repr, DecidableEq

/-- A default config, only ever produced by lookup of a name absent from the
store (which would raise `KeyError` in the source). -/
def defaultUnscaledConfig : UnscaledTrackerConfig :=
  ⟨"", ⟨0, 0, 0⟩, ⟨.EXACT, 0, ⟨0, 0⟩, ⟨[], 0, 0, 0, 0, 0, 0, 0, 0, 0, 0⟩⟩⟩

/-- `all_configs[name]`: lookup of a named preset. -/
def TrackerConfigs.get (s : TrackerConfigs) (name : String) : UnscaledTrackerConfig :=
  (s.configs.lookup name).getD defaultUnscaledConfig

/-- Replace the preset stored under `name` (in-place mutation of
`all_configs[name]` in the source). -/
def TrackerConfigs.set (s : TrackerConfigs) (name : String) (u : UnscaledTrackerConfig) :
    TrackerConfigs :=
  { s with configs := s.configs.map (fun p => if p.1 = name then (name, u) else p) }

/-- The preset names currently stored. -/
def TrackerConfigs.keys (s : TrackerConfigs) : List String :=
  s.configs.map Prod.fst

/-- Modelled from the spec: `TrackerConfigs.add_config` (in
`napari_btrack/config.py`, absent from the sources given) "delegates
loading to the external library": it loads the config file at `filename`
through the filesystem oracle `fs`, records the filename on the loaded
preset, and stores it under its name, replacing an existing preset of that
name when `overwrite` is set and raising when one exists and `overwrite` is
not set.  It returns the name of the added config. -/
def TrackerConfigs.add_config (s : TrackerConfigs)
    (fs : String → String × UnscaledTrackerConfig)
    (filename : String) (overwrite : Bool) :
    Except String (String × TrackerConfigs) :=
  let loaded := fs filename
  let name := loaded.1
  let cfg := { loaded.2 with filename := filename }
  if name ∈ s.keys then
    if overwrite then
      .ok (name, s.set name cfg)
    else
      .error "config name already registered"
  else
    .ok (name, { s with configs := s.configs ++ [(name, cfg)] })

/-- The state the GUI callbacks act on: the config store, the widget
container, and the track layers added to the viewer (result paired with the
layer name). -/
structure PluginState (SegData Res : Type) where
  all_configs : TrackerConfigs
  widget : Container SegData
  viewer_layers : List (Res × String)
deriving Repr, DecidableEq

/-- The `select_config` callback (`track.py` lines 201-217), fired after the
config selector's value has changed: save the widget values into the
previously current preset, make the selector's value the current preset, and
set the widgets from it. -/
def select_config {S R : Type} (st : PluginState S R) : PluginState S R :=
  let previous_config_name := st.all_configs.current_config
  let updated := update_config_from_widgets (st.all_configs.get previous_config_name) st.widget
  let all_configs := st.all_configs.set previous_config_name updated.1
  let new_config_name := updated.2.config_selector_value
  let all_configs := { all_configs with current_config := new_config_name }
  let synced := update_widgets_from_config (all_configs.get new_config_name) updated.2
  { st with all_configs := all_configs, widget := synced.2 }

/-- The `run` callback (`track.py` lines 219-241): copy the widget values
into the selected preset, scale it, call `run_tracker` on the selected
segmentation layer, and add the resulting tracks to the viewer under the
name `"{segmentation}_btrack"`. -/
def run {S Obj Internal R : Type} (lib : BTrackLib S Obj Internal R)
    (st : PluginState S R) : PluginState S R :=
  let name := st.widget.config_selector_value
  let updated := update_config_from_widgets (st.all_configs.get name) st.widget
  let all_configs := st.all_configs.set name updated.1
  let config := updated.1.scale_config
  let segmentation := updated.2.segmentation_selector
  let tracked := run_tracker lib segmentation config
  { st with
    all_configs := all_configs
    widget := updated.2
    viewer_layers := st.viewer_layers ++ [(tracked.1, segmentation.name ++ "_btrack")] }

/-- The `restore_defaults` callback (`track.py` lines 243-257): reload the
currently selected preset from its original filename (`add_config` with
`overwrite=True`) and set the widgets from the reloaded preset. -/
def restore_defaults {S R : Type} (fs : String → String × UnscaledTrackerConfig)
    (st : PluginState S R) : Except String (PluginState S R) :=
  let config_name := st.all_configs.current_config
  let filename := (st.all_configs.get config_name).filename
  match st.all_configs.add_config fs filename true with
  | .error e => .error e
  | .ok named =>
    let all_configs := named.2
    let synced := update_widgets_from_config (all_configs.get config_name) st.widget
    .ok { st with all_configs := all_configs, widget := synced.2 }

/-- The `save_config_to_json` callback (`track.py` lines 259-275): if the
save dialog was cancelled (`none`), return with nothing changed and nothing
saved; otherwise copy the widget values into the selected preset, scale it,
and hand the scaled config to the external `save_config` (the returned
`Option` records the file written). -/
def save_config_to_json {S R : Type} (save_path : Option String)
    (st : PluginState S R) : PluginState S R × Option (String × ScaledTrackerConfig) :=
  match save_path with
  | none => (st, none)
  | some path =>
    let name := st.widget.config_selector_value
    let updated := update_config_from_widgets (st.all_configs.get name) st.widget
    let all_configs := st.all_configs.set name updated.1
    let config := updated.1.scale_config
    ({ st with all_configs := all_configs, widget := updated.2 }, some (path, config))

/-- The `load_config_from_json` callback (`track.py` lines 277-289): if the
load dialog was cancelled (`none`), return with nothing changed; otherwise
add the config at the chosen path to the store (`overwrite=False`), append
its name to the selector's choices, and set the selector's value to it --
which fires the `select_config` callback. -/
def load_config_from_json {S R : Type} (fs : String → String × UnscaledTrackerConfig)
    (load_path : Option String) (st : PluginState S R) :
    Except String (PluginState S R) :=
  match load_path with
  | none => .ok st
  | some path =>
    match st.all_configs.add_config fs path false with
    | .error e => .error e
    | .ok named =>
      let config_name := named.1
      let widget := { st.widget with
        config_selector_choices := st.widget.config_selector_choices ++ [config_name] }
      let widget := { widget with config_selector_value := config_name }
      .ok (select_config { st with all_configs := named.2, widget := widget })

/-- The spec's consistency invariant between a preset and the widgets: every
widget value equals the corresponding config field -- the sigmas, the
update-method selector showing the enum member's name, max search radius,
the motion-model fields, each hypothesis checkbox reflecting membership of
its name in the hypotheses list, and the hypothesis-model scalars. -/
def matchesConfig {S : Type} (u : UnscaledTrackerConfig) (w : Container S) : Prop :=
  w.P_sigma = u.sigmas.P ∧
  w.G_sigma = u.sigmas.G ∧
  w.R_sigma = u.sigmas.R ∧
  w.update_method_selector = u.tracker_config.update_method.name ∧
  w.max_search_radius = u.tracker_config.max_search_radius ∧
  w.accuracy = u.tracker_config.motion_model.accuracy ∧
  w.max_lost = u.tracker_config.motion_model.max_lost ∧
  (∀ h ∈ hypothesis_names,
    w.hypothesisValue h = u.tracker_config.hypothesis_model.hypotheses.contains h) ∧
  w.lambda_time = u.tracker_config.hypothesis_model.lambda_time ∧
  w.lambda_dist = u.tracker_config.hypothesis_model.lambda_dist ∧
  w.lambda_link = u.tracker_config.hypothesis_model.lambda_link ∧
  w.lambda_branch = u.tracker_config.hypothesis_model.lambda_branch ∧
  w.theta_dist = u.tracker_config.hypothesis_model.theta_dist ∧
  w.theta_time = u.tracker_config.hypothesis_model.theta_time ∧
  w.dist_thresh = u.tracker_config.hypothesis_model.dist_thresh ∧
  w.time_thresh = u.tracker_config.hypothesis_model.time_thresh ∧
  w.apop_thresh = u.tracker_config.hypothesis_model.apop_thresh ∧
  w.segmentation_miss_rate = u.tracker_config.hypothesis_model.segmentation_miss_rate

/-! ## Helper lemmas -/

theorem hypothesisValue_P_FP {S : Type} (w : Container S) :
    w.hypothesisValue "P_FP" = w.P_FP := rfl

theorem hypothesisValue_P_init {S : Type} (w : Container S) :
    w.hypothesisValue "P_init" = w.P_init := rfl

theorem hypothesisValue_P_term {S : Type} (w : Container S) :
    w.hypothesisValue "P_term" = w.P_term := rfl

theorem hypothesisValue_P_link {S : Type} (w : Container S) :
    w.hypothesisValue "P_link" = w.P_link := rfl

theorem hypothesisValue_P_branch {S : Type} (w : Container S) :
    w.hypothesisValue "P_branch" = w.P_branch := rfl

theorem hypothesisValue_P_dead {S : Type} (w : Container S) :
    w.hypothesisValue "P_dead" = w.P_dead := rfl

theorem hypothesisValue_P_merge {S : Type} (w : Container S) :
    w.hypothesisValue "P_merge" = w.P_merge := rfl

/-- The unrolled checkbox loop computes the filter of the canonical name list
by the checkbox values. -/
theorem collect_hypotheses_eq_filter {S : Type} (w : Container S) :
    collect_hypotheses w = hypothesis_names.filter w.hypothesisValue := by
  cases h1 : w.P_FP <;> cases h2 : w.P_init <;> cases h3 : w.P_term <;>
    cases h4 : w.P_link <;> cases h5 : w.P_branch <;> cases h6 : w.P_dead <;>
    cases h7 : w.P_merge <;>
  simp [collect_hypotheses, hypothesis_names, List.filter,
    hypothesisValue_P_FP, hypothesisValue_P_init, hypothesisValue_P_term,
    hypothesisValue_P_link, hypothesisValue_P_branch, hypothesisValue_P_dead,
    hypothesisValue_P_merge, h1, h2, h3, h4, h5, h6, h7]

theorem contains_eq_decide_mem (l : List String) (a : String) :
    l.contains a = decide (a ∈ l) := by
  by_cases h : a ∈ l <;> simp [List.contains, h]

/-- Membership of a canonical name in the filtered list is the checkbox value. -/
theorem contains_filter_hypothesis {S : Type} (w : Container S) (h : String)
    (hh : h ∈ hypothesis_names) :
    (hypothesis_names.filter w.hypothesisValue).contains h = w.hypothesisValue h := by
  rw [contains_eq_decide_mem]
  by_cases hv : w.hypothesisValue h
  · simp [List.mem_filter, hh, hv]
  · simp only [Bool.not_eq_true] at hv
    simp [List.mem_filter, hv]

/-- Selecting a choice of the update-method combobox and writing its index
into the enum-valued config field lands on the member of that name. -/
theorem name_ofIndex_indexOf (v : String) (hv : v ∈ update_method_choices) :
    (BayesianUpdates.ofIndex (update_method_choices.indexOf v)).name = v := by
  fin_cases hv <;> rfl

/-- Writing an enum member's name into the combobox and reading the index
back through the enum recovers the member. -/
theorem ofIndex_indexOf_name (m : BayesianUpdates) :
    BayesianUpdates.ofIndex (update_method_choices.indexOf m.name) = m := by
  cases m <;> rfl

/-- After `update_widgets_from_config`, the widgets match the config. -/
theorem matchesConfig_update_widgets {S : Type} (u : UnscaledTrackerConfig)
    (w : Container S) : matchesConfig u (update_widgets_from_config u w).2 := by
  refine ⟨rfl, rfl, rfl, rfl, rfl, rfl, rfl, ?_, rfl, rfl, rfl, rfl, rfl, rfl, rfl, rfl, rfl, rfl⟩
  intro h hh
  fin_cases hh <;> rfl

/-- After `update_config_from_widgets`, the config matches the widgets,
provided the update-method combobox shows one of its choices. -/
theorem matchesConfig_update_config {S : Type} (u : UnscaledTrackerConfig)
    (w : Container S) (hw : w.update_method_selector ∈ update_method_choices) :
    matchesConfig (update_config_from_widgets u w).1 w := by
  refine ⟨rfl, rfl, rfl, (name_ofIndex_indexOf _ hw).symm, rfl, rfl, rfl, ?_,
    rfl, rfl, rfl, rfl, rfl, rfl, rfl, rfl, rfl, rfl⟩
  intro h hh
  show w.hypothesisValue h = (collect_hypotheses w).contains h
  rw [collect_hypotheses_eq_filter, contains_filter_hypothesis w h hh]

/-- After the `select_config` callback, the widgets match the currently
selected preset. -/
theorem matchesConfig_select_config {S R : Type} (st : PluginState S R) :
    matchesConfig
      ((select_config st).all_configs.get (select_config st).all_configs.current_config)
      (select_config st).widget :=
  matchesConfig_update_widgets _ _

/-! ## Concrete sample values (used by witnesses and counterexamples) -/

def sampleSegmentation : Segmentation Unit :=
  { name := "segm", data := (), level_shapes := [[4, 3, 2]] }

def sampleContainer : Container Unit :=
  { segmentation_selector := sampleSegmentation
    config_selector_value := "cell"
    config_selector_choices := ["cell", "particle"]
    update_method_selector := "EXACT"
    P_sigma := 150
    G_sigma := 15
    R_sigma := 5
    max_search_radius := 100
    accuracy := 7
    max_lost := 5
    P_FP := true
    P_init := true
    P_term := true
    P_link := false
    P_branch := true
    P_dead := true
    P_merge := false
    lambda_time := 5
    lambda_dist := 3
    lambda_link := 10
    lambda_branch := 50
    theta_dist := 20
    theta_time := 5
    dist_thresh := 40
    time_thresh := 2
    apop_thresh := 5
    segmentation_miss_rate := 1 }

def sampleConfig : UnscaledTrackerConfig :=
  { filename := "cell_config.json"
    sigmas := ⟨150, 15, 5⟩
    tracker_config :=
      { update_method := .APPROXIMATE
        max_search_radius := 100
        motion_model := ⟨7, 5⟩
        hypothesis_model :=
          { hypotheses := ["P_init", "P_FP"]
            lambda_time := 5
            lambda_dist := 3
            lambda_link := 10
            lambda_branch := 50
            theta_dist := 20
            theta_time := 5
            dist_thresh := 40
            time_thresh := 2
            apop_thresh := 5
            segmentation_miss_rate := 1 } } }

def sampleScaled : ScaledTrackerConfig := sampleConfig.scale_config

def trivialLib : BTrackLib Unit Unit Unit Unit :=
  { init_internal := ()
    segmentation_to_objects := fun _ => []
    track_interactive := fun _ _ => ()
    optimize := fun _ => ()
    to_napari := fun _ _ => () }

def sampleState : PluginState Unit Unit :=
  { all_configs := { configs := [("cell", sampleConfig)], current_config := "cell" }
    widget := sampleContainer
    viewer_layers := [] }

/-! ## Claims -/

/-- C3: if the save-path dialog returns `None`, `save_config_to_json` returns
with the state unchanged and nothing saved; if the load-path dialog returns
`None`, `load_config_from_json` returns with the state unchanged (no config
added, selector untouched, widgets untouched). -/
theorem C3_cancel_noop {S R : Type} (fs : String → String × UnscaledTrackerConfig)
    (st : PluginState S R) :
    save_config_to_json none st = (st, none) ∧
    load_config_from_json fs none st = .ok st :=
  ⟨rfl, rfl⟩

/-- C4: every invocation of `run_tracker` performs the external calls in the
strict order configure, append, set volume, track_interactive, optimize,
to_napari, each exactly once, and never exports before optimize has run. -/
theorem C4_run_tracker_call_order {SegData Obj Internal Res : Type}
    (lib : BTrackLib SegData Obj Internal Res) (segmentation : Segmentation SegData)
    (tracker_config : ScaledTrackerConfig) :
    (run_tracker lib segmentation tracker_config).2.2
        = [.configure, .append, .setVolume, .trackInteractive, .optimize, .toNapari] ∧
    (∀ e : TrackerEvent, ((run_tracker lib segmentation tracker_config).2.2).count e = 1) ∧
    (∀ i : ℕ, ((run_tracker lib segmentation tracker_config).2.2).get? i = some .toNapari →
      ∃ j, j < i ∧ ((run_tracker lib segmentation tracker_config).2.2).get? j = some .optimize) := by
  have hev : (run_tracker lib segmentation tracker_config).2.2
      = [.configure, .append, .setVolume, .trackInteractive, .optimize, .toNapari] := rfl
  refine ⟨hev, ?_, ?_⟩
  · intro e
    rw [hev]
    cases e <;> rfl
  · intro i h
    rw [hev] at h
    rcases i with _ | _ | _ | _ | _ | _ | i <;> simp [List.get?] at h
    exact ⟨4, by omega, by rw [hev]; rfl⟩

/-- Witness for C4 at concrete inputs: export at position 5 is preceded by
an optimize call. -/
theorem C4_witness :
    ∃ j, j < 5 ∧
      ((run_tracker trivialLib sampleSegmentation sampleScaled).2.2).get? j
        = some .optimize :=
  (C4_run_tracker_call_order trivialLib sampleSegmentation sampleScaled).2.2 5 rfl

/-- C5: the `run` callback copies the widget values into the selected preset,
scales it, runs the tracker on the selected segmentation layer with the
scaled config, and appends the result to the viewer's track layers under the
name `"{segmentation}_btrack"`; nothing else changes. -/
theorem C5_run_callback {S Obj Internal R : Type} (lib : BTrackLib S Obj Internal R)
    (st : PluginState S R) :
    run lib st =
      { all_configs := st.all_configs.set st.widget.config_selector_value
          (update_config_from_widgets
            (st.all_configs.get st.widget.config_selector_value) st.widget).1
        widget := st.widget
        viewer_layers := st.viewer_layers ++
          [((run_tracker lib st.widget.segmentation_selector
              (update_config_from_widgets
                (st.all_configs.get st.widget.config_selector_value) st.widget).1.scale_config).1,
            st.widget.segmentation_selector.name ++ "_btrack")] } :=
  rfl

/-- C9: for a segmentation whose `level_shapes[0]` has `n ≥ 1` entries,
`run_tracker` sets the tracker volume to `n - 1` pairs `(0, s)`, dropping the
first (time) entry and taking the rest in reversed order. -/
theorem C9_volume_dims {SegData Obj Internal Res : Type}
    (lib : BTrackLib SegData Obj Internal Res) (segmentation : Segmentation SegData)
    (tracker_config : ScaledTrackerConfig) (n : ℕ)
    (hn : (segmentation.level_shapes.headD []).length = n) (h1 : 1 ≤ n) :
    ((run_tracker lib segmentation tracker_config).2.1.volume).length = n - 1 ∧
    ∀ i, i < n - 1 →
      ((run_tracker lib segmentation tracker_config).2.1.volume).get? i
        = ((segmentation.level_shapes.headD []).get? (n - 1 - i)).map
            (fun s => ((0 : ℕ), s)) := by
  have hvol : (run_tracker lib segmentation tracker_config).2.1.volume
      = ((segmentation.level_shapes.headD []).drop 1).reverse.map
          (fun s => ((0 : ℕ), s)) := rfl
  constructor
  · rw [hvol, List.length_map, List.length_reverse, List.length_drop, hn]
  · intro i hi
    rw [hvol, List.get?_map, List.get?_reverse]
    · rw [List.get?_drop]
      have harith : 1 + (((segmentation.level_shapes.headD []).drop 1).length - 1 - i)
          = n - 1 - i := by
        simp only [List.length_drop, hn]
        omega
      rw [harith]
    · simp only [List.length_drop, hn]
      omega

/-- Witness for C9 at a concrete segmentation of shape `[4, 3, 2]`. -/
theorem C9_witness :
    ((run_tracker trivialLib sampleSegmentation sampleScaled).2.1.volume).length = 3 - 1 ∧
    ((run_tracker trivialLib sampleSegmentation sampleScaled).2.1.volume).get? 0
      = ((sampleSegmentation.level_shapes.headD []).get? (3 - 1 - 0)).map
          (fun s => ((0 : ℕ), s)) :=
  ⟨(C9_volume_dims trivialLib sampleSegmentation sampleScaled 3 rfl (by omega)).1,
   (C9_volume_dims trivialLib sampleSegmentation sampleScaled 3 rfl (by omega)).2 0 (by omega)⟩

/-- C10: each sync function writes in one direction only --
`update_widgets_from_config` leaves the config unchanged and
`update_config_from_widgets` leaves the container unchanged. -/
theorem C10_sync_one_directional {S : Type} (u : UnscaledTrackerConfig)
    (w : Container S) :
    (update_widgets_from_config u w).1 = u ∧ (update_config_from_widgets u w).2 = w :=
  ⟨rfl, rfl⟩

attribute [ext] Sigmas MotionModel HypothesisModel TrackerConfig UnscaledTrackerConfig

theorem lookup_eq_none_of_not_mem_keys (l : List (String × UnscaledTrackerConfig))
    (k : String) (h : k ∉ l.map Prod.fst) : l.lookup k = none := by
  induction l with
  | nil => rfl
  | cons p t ih =>
    rcases p with ⟨a, b⟩
    simp only [List.map_cons, List.mem_cons] at h
    push_neg at h
    simp only [List.lookup_cons, beq_eq_false_iff_ne.mpr h.1]
    exact ih h.2

theorem lookup_map_set_self (l : List (String × UnscaledTrackerConfig)) (name : String)
    (u : UnscaledTrackerConfig) (h : name ∈ l.map Prod.fst) :
    (l.map (fun p => if p.1 = name then (name, u) else p)).lookup name = some u := by
  induction l with
  | nil => simp at h
  | cons p t ih =>
    rcases p with ⟨a, b⟩
    by_cases ha : a = name
    · subst ha
      simp [List.lookup_cons]
    · simp only [List.map_cons, List.mem_cons] at h
      rcases h with h | h
      · exact absurd h.symm ha
      · simp only [List.map_cons, if_neg ha, List.lookup_cons,
          beq_eq_false_iff_ne.mpr (fun hh => ha hh.symm)]
        exact ih h

theorem lookup_map_set_other (l : List (String × UnscaledTrackerConfig))
    (name name' : String) (u : UnscaledTrackerConfig) (h : name' ≠ name) :
    (l.map (fun p => if p.1 = name then (name, u) else p)).lookup name' = l.lookup name' := by
  induction l with
  | nil => rfl
  | cons p t ih =>
    rcases p with ⟨a, b⟩
    by_cases ha : a = name
    · subst ha
      have h1 : (name' == a) = false := beq_eq_false_iff_ne.mpr h
      simp [List.lookup_cons, h1]
      exact ih
    · simp only [List.map_cons, if_neg ha, List.lookup_cons]
      cases hbeq : name' == a
      · exact ih
      · rfl

/-- C6: `update_config_from_widgets` copies each listed widget value into the
correspondingly named config field, and `update_widgets_from_config` copies
the same field pairs in the opposite direction.  For the enum-valued
update-method field the correspondence is through the combobox: the written
member's name is the selector's value (given the selector shows one of its
choices), and in the widget direction the selector receives the member's
name. -/
theorem C6_field_copies {S : Type} (u : UnscaledTrackerConfig) (w : Container S)
    (hw : w.update_method_selector ∈ update_method_choices) :
    ((update_config_from_widgets u w).1.tracker_config.update_method.name
        = w.update_method_selector ∧
      (update_config_from_widgets u w).1.sigmas.P = w.P_sigma ∧
      (update_config_from_widgets u w).1.sigmas.G = w.G_sigma ∧
      (update_config_from_widgets u w).1.sigmas.R = w.R_sigma ∧
      (update_config_from_widgets u w).1.tracker_config.max_search_radius
        = w.max_search_radius ∧
      (update_config_from_widgets u w).1.tracker_config.motion_model.accuracy
        = w.accuracy ∧
      (update_config_from_widgets u w).1.tracker_config.motion_model.max_lost
        = w.max_lost ∧
      (update_config_from_widgets u w).1.tracker_config.hypothesis_model.lambda_time
        = w.lambda_time ∧
      (update_config_from_widgets u w).1.tracker_config.hypothesis_model.lambda_dist
        = w.lambda_dist ∧
      (update_config_from_widgets u w).1.tracker_config.hypothesis_model.lambda_link
        = w.lambda_link ∧
      (update_config_from_widgets u w).1.tracker_config.hypothesis_model.lambda_branch
        = w.lambda_branch ∧
      (update_config_from_widgets u w).1.tracker_config.hypothesis_model.theta_dist
        = w.theta_dist ∧
      (update_config_from_widgets u w).1.tracker_config.hypothesis_model.theta_time
        = w.theta_time ∧
      (update_config_from_widgets u w).1.tracker_config.hypothesis_model.dist_thresh
        = w.dist_thresh ∧
      (update_config_from_widgets u w).1.tracker_config.hypothesis_model.time_thresh
        = w.time_thresh ∧
      (update_config_from_widgets u w).1.tracker_config.hypothesis_model.apop_thresh
        = w.apop_thresh ∧
      (update_config_from_widgets u w).1.tracker_config.hypothesis_model.segmentation_miss_rate
        = w.segmentation_miss_rate) ∧
    ((update_widgets_from_config u w).2.update_method_selector
        = u.tracker_config.update_method.name ∧
      (update_widgets_from_config u w).2.P_sigma = u.sigmas.P ∧
      (update_widgets_from_config u w).2.G_sigma = u.sigmas.G ∧
      (update_widgets_from_config u w).2.R_sigma = u.sigmas.R ∧
      (update_widgets_from_config u w).2.max_search_radius
        = u.tracker_config.max_search_radius ∧
      (update_widgets_from_config u w).2.accuracy
        = u.tracker_config.motion_model.accuracy ∧
      (update_widgets_from_config u w).2.max_lost
        = u.tracker_config.motion_model.max_lost ∧
      (update_widgets_from_config u w).2.lambda_time
        = u.tracker_config.hypothesis_model.lambda_time ∧
      (update_widgets_from_config u w).2.lambda_dist
        = u.tracker_config.hypothesis_model.lambda_dist ∧
      (update_widgets_from_config u w).2.lambda_link
        = u.tracker_config.hypothesis_model.lambda_link ∧
      (update_widgets_from_config u w).2.lambda_branch
        = u.tracker_config.hypothesis_model.lambda_branch ∧
      (update_widgets_from_config u w).2.theta_dist
        = u.tracker_config.hypothesis_model.theta_dist ∧
      (update_widgets_from_config u w).2.theta_time
        = u.tracker_config.hypothesis_model.theta_time ∧
      (update_widgets_from_config u w).2.dist_thresh
        = u.tracker_config.hypothesis_model.dist_thresh ∧
      (update_widgets_from_config u w).2.time_thresh
        = u.tracker_config.hypothesis_model.time_thresh ∧
      (update_widgets_from_config u w).2.apop_thresh
        = u.tracker_config.hypothesis_model.apop_thresh ∧
      (update_widgets_from_config u w).2.segmentation_miss_rate
        = u.tracker_config.hypothesis_model.segmentation_miss_rate) :=
  ⟨⟨name_ofIndex_indexOf _ hw, rfl, rfl, rfl, rfl, rfl, rfl, rfl, rfl, rfl, rfl, rfl,
    rfl, rfl, rfl, rfl, rfl⟩,
   ⟨rfl, rfl, rfl, rfl, rfl, rfl, rfl, rfl, rfl, rfl, rfl, rfl, rfl, rfl, rfl, rfl, rfl⟩⟩

/-- Witness for C6 at concrete inputs: the update-method selector value is
recovered from the written enum member. -/
theorem C6_witness :
    (update_config_from_widgets sampleConfig sampleContainer).1.tracker_config.update_method.name
      = sampleContainer.update_method_selector :=
  (C6_field_copies sampleConfig sampleContainer (by decide)).1.1

/-- C8: `update_config_from_widgets` sets `hypothesis_model.hypotheses` to
exactly the checked subset of the seven canonical names, in the fixed
canonical order, regardless of the list's previous contents; and
`update_widgets_from_config` sets each of the seven checkboxes to true
exactly when its name is a member of `hypothesis_model.hypotheses`. -/
theorem C8_hypotheses_sync {S : Type} (u : UnscaledTrackerConfig) (w : Container S) :
    (update_config_from_widgets u w).1.tracker_config.hypothesis_model.hypotheses
        = hypothesis_names.filter w.hypothesisValue ∧
    (∀ h : String,
      h ∈ (update_config_from_widgets u w).1.tracker_config.hypothesis_model.hypotheses ↔
        h ∈ hypothesis_names ∧ w.hypothesisValue h = true) ∧
    (∀ h ∈ hypothesis_names,
      ((update_widgets_from_config u w).2).hypothesisValue h
        = decide (h ∈ u.tracker_config.hypothesis_model.hypotheses)) := by
  have hcoll : (update_config_from_widgets u w).1.tracker_config.hypothesis_model.hypotheses
      = collect_hypotheses w := rfl
  refine ⟨by rw [hcoll, collect_hypotheses_eq_filter], ?_, ?_⟩
  · intro h
    rw [hcoll, collect_hypotheses_eq_filter]
    exact List.mem_filter
  · intro h hh
    fin_cases hh <;> exact contains_eq_decide_mem _ _

/-- Witness for C8 at concrete inputs: the `P_link` checkbox (unchecked in
`sampleContainer`) reflects absence of `"P_link"` from the written list, and
the synced checkbox equals membership in the sample config's list. -/
theorem C8_witness :
    ("P_link" ∈
        (update_config_from_widgets sampleConfig sampleContainer).1.tracker_config.hypothesis_model.hypotheses ↔
      "P_link" ∈ hypothesis_names ∧ sampleContainer.hypothesisValue "P_link" = true) ∧
    ((update_widgets_from_config sampleConfig sampleContainer).2).hypothesisValue "P_term"
      = decide ("P_term" ∈ sampleConfig.tracker_config.hypothesis_model.hypotheses) :=
  ⟨(C8_hypotheses_sync sampleConfig sampleContainer).2.1 "P_link",
   (C8_hypotheses_sync sampleConfig sampleContainer).2.2 "P_term" (by decide)⟩

/-- C2 as stated is false: the round trip renormalises the hypotheses list
to the canonical order.  At `sampleConfig` (whose list is
`["P_init", "P_FP"]`) the round trip returns `["P_FP", "P_init"]`. -/
theorem C2_counterexample :
    (update_config_from_widgets
        (update_widgets_from_config sampleConfig sampleContainer).1
        (update_widgets_from_config sampleConfig sampleContainer).2).1
      ≠ sampleConfig := by
  decide

/-- C2 corrected: the round trip config → widgets → config preserves every
field except `hypothesis_model.hypotheses`, which is replaced by the
canonical-order filtration of the original list (the canonical seven names,
in their fixed order, restricted to members of the original list); when the
original list already equals its canonical filtration, every field --
hypotheses included -- is preserved. -/
theorem C2_roundtrip_amended {S : Type} (u : UnscaledTrackerConfig) (w : Container S) :
    ((update_config_from_widgets
          (update_widgets_from_config u w).1
          (update_widgets_from_config u w).2).1.filename = u.filename ∧
      (update_config_from_widgets
          (update_widgets_from_config u w).1
          (update_widgets_from_config u w).2).1.sigmas = u.sigmas ∧
      (update_config_from_widgets
          (update_widgets_from_config u w).1
          (update_widgets_from_config u w).2).1.tracker_config.update_method
        = u.tracker_config.update_method ∧
      (update_config_from_widgets
          (update_widgets_from_config u w).1
          (update_widgets_from_config u w).2).1.tracker_config.max_search_radius
        = u.tracker_config.max_search_radius ∧
      (update_config_from_widgets
          (update_widgets_from_config u w).1
          (update_widgets_from_config u w).2).1.tracker_config.motion_model
        = u.tracker_config.motion_model ∧
      (update_config_from_widgets
          (update_widgets_from_config u w).1
          (update_widgets_from_config u w).2).1.tracker_config.hypothesis_model.lambda_time
        = u.tracker_config.hypothesis_model.lambda_time ∧
      (update_config_from_widgets
          (update_widgets_from_config u w).1
          (update_widgets_from_config u w).2).1.tracker_config.hypothesis_model.lambda_dist
        = u.tracker_config.hypothesis_model.lambda_dist ∧
      (update_config_from_widgets
          (update_widgets_from_config u w).1
          (update_widgets_from_config u w).2).1.tracker_config.hypothesis_model.lambda_link
        = u.tracker_config.hypothesis_model.lambda_link ∧
      (update_config_from_widgets
          (update_widgets_from_config u w).1
          (update_widgets_from_config u w).2).1.tracker_config.hypothesis_model.lambda_branch
        = u.tracker_config.hypothesis_model.lambda_branch ∧
      (update_config_from_widgets
          (update_widgets_from_config u w).1
          (update_widgets_from_config u w).2).1.tracker_config.hypothesis_model.theta_dist
        = u.tracker_config.hypothesis_model.theta_dist ∧
      (update_config_from_widgets
          (update_widgets_from_config u w).1
          (update_widgets_from_config u w).2).1.tracker_config.hypothesis_model.theta_time
        = u.tracker_config.hypothesis_model.theta_time ∧
      (update_config_from_widgets
          (update_widgets_from_config u w).1
          (update_widgets_from_config u w).2).1.tracker_config.hypothesis_model.dist_thresh
        = u.tracker_config.hypothesis_model.dist_thresh ∧
      (update_config_from_widgets
          (update_widgets_from_config u w).1
          (update_widgets_from_config u w).2).1.tracker_config.hypothesis_model.time_thresh
        = u.tracker_config.hypothesis_model.time_thresh ∧
      (update_config_from_widgets
          (update_widgets_from_config u w).1
          (update_widgets_from_config u w).2).1.tracker_config.hypothesis_model.apop_thresh
        = u.tracker_config.hypothesis_model.apop_thresh ∧
      (update_config_from_widgets
          (update_widgets_from_config u w).1
          (update_widgets_from_config u w).2).1.tracker_config.hypothesis_model.segmentation_miss_rate
        = u.tracker_config.hypothesis_model.segmentation_miss_rate ∧
      (update_config_from_widgets
          (update_widgets_from_config u w).1
          (update_widgets_from_config u w).2).1.tracker_config.hypothesis_model.hypotheses
        = hypothesis_names.filter
            (fun h => u.tracker_config.hypothesis_model.hypotheses.contains h)) ∧
    (u.tracker_config.hypothesis_model.hypotheses
        = hypothesis_names.filter
            (fun h => u.tracker_config.hypothesis_model.hypotheses.contains h) →
      (update_config_from_widgets
          (update_widgets_from_config u w).1
          (update_widgets_from_config u w).2).1 = u) := by
  have hupd : (update_config_from_widgets
      (update_widgets_from_config u w).1
      (update_widgets_from_config u w).2).1.tracker_config.update_method
      = u.tracker_config.update_method := ofIndex_indexOf_name _
  have hhyp : (update_config_from_widgets
      (update_widgets_from_config u w).1
      (update_widgets_from_config u w).2).1.tracker_config.hypothesis_model.hypotheses
      = hypothesis_names.filter
          (fun h => u.tracker_config.hypothesis_model.hypotheses.contains h) := by
    show collect_hypotheses (update_widgets_from_config u w).2
        = hypothesis_names.filter
            (fun h => u.tracker_config.hypothesis_model.hypotheses.contains h)
    rw [collect_hypotheses_eq_filter]
    exact List.filter_congr (fun h hh => by fin_cases hh <;> rfl)
  refine ⟨⟨rfl, rfl, hupd, rfl, rfl, rfl, rfl, rfl, rfl, rfl, rfl, rfl, rfl, rfl, rfl, hhyp⟩, ?_⟩
  intro he
  have hmm : (update_config_from_widgets
      (update_widgets_from_config u w).1
      (update_widgets_from_config u w).2).1.tracker_config.hypothesis_model
      = u.tracker_config.hypothesis_model :=
    HypothesisModel.ext (by rw [hhyp, ← he]) rfl rfl rfl rfl rfl rfl rfl rfl rfl rfl
  exact UnscaledTrackerConfig.ext rfl rfl (TrackerConfig.ext hupd rfl rfl hmm)

def sampleConfigCanonical : UnscaledTrackerConfig :=
  { sampleConfig with
    tracker_config :=
      { sampleConfig.tracker_config with
        hypothesis_model :=
          { sampleConfig.tracker_config.hypothesis_model with
            hypotheses := ["P_FP", "P_init"] } } }

/-- Witness for C2's amended claim: a config whose hypotheses list is already
in canonical order round-trips to itself. -/
theorem C2_witness :
    (update_config_from_widgets
        (update_widgets_from_config sampleConfigCanonical sampleContainer).1
        (update_widgets_from_config sampleConfigCanonical sampleContainer).2).1
      = sampleConfigCanonical :=
  (C2_roundtrip_amended sampleConfigCanonical sampleContainer).2 (by decide)

/-- C1: the widget-config consistency invariant holds at each of the three
points the spec names: after the `select_config` callback, after a
non-cancelled `load_config_from_json` completes (the selector-value change
having fired `select_config`), and in the `run` callback just before
`run_tracker` is invoked (after `update_config_from_widgets`), the last
given that the update-method combobox shows one of its choices. -/
theorem C1_sync_invariant {S R : Type} (st : PluginState S R)
    (fs : String → String × UnscaledTrackerConfig) (path : String)
    (st' : PluginState S R) :
    matchesConfig
        ((select_config st).all_configs.get (select_config st).all_configs.current_config)
        (select_config st).widget ∧
    (load_config_from_json fs (some path) st = .ok st' →
      matchesConfig (st'.all_configs.get st'.all_configs.current_config) st'.widget) ∧
    (st.widget.update_method_selector ∈ update_method_choices →
      matchesConfig
        (update_config_from_widgets
          (st.all_configs.get st.widget.config_selector_value) st.widget).1
        (update_config_from_widgets
          (st.all_configs.get st.widget.config_selector_value) st.widget).2) := by
  refine ⟨matchesConfig_select_config st, ?_, ?_⟩
  · intro hok
    rcases hadd : st.all_configs.add_config fs path false with e | named
    · simp only [load_config_from_json, hadd] at hok
      cases hok
    · simp only [load_config_from_json, hadd] at hok
      cases hok
      exact matchesConfig_select_config _
  · intro hw
    have h2 : (update_config_from_widgets
        (st.all_configs.get st.widget.config_selector_value) st.widget).2 = st.widget := rfl
    rw [h2]
    exact matchesConfig_update_config _ _ hw

def sampleFs : String → String × UnscaledTrackerConfig :=
  fun _ => ("particle", sampleConfigCanonical)

def loadedSample : PluginState Unit Unit :=
  (load_config_from_json sampleFs (some "new_config.json") sampleState).toOption.getD
    sampleState

/-- Witness for C1 at concrete inputs: the invariant after selecting, after
loading a new config, and before a run. -/
theorem C1_witness :
    matchesConfig
        ((select_config sampleState).all_configs.get
          (select_config sampleState).all_configs.current_config)
        (select_config sampleState).widget ∧
    matchesConfig
        (loadedSample.all_configs.get loadedSample.all_configs.current_config)
        loadedSample.widget ∧
    matchesConfig
        (update_config_from_widgets
          (sampleState.all_configs.get sampleState.widget.config_selector_value)
          sampleState.widget).1
        (update_config_from_widgets
          (sampleState.all_configs.get sampleState.widget.config_selector_value)
          sampleState.widget).2 :=
  ⟨(C1_sync_invariant sampleState sampleFs "new_config.json" loadedSample).1,
   (C1_sync_invariant sampleState sampleFs "new_config.json" loadedSample).2.1 rfl,
   (C1_sync_invariant sampleState sampleFs "new_config.json" loadedSample).2.2 (by decide)⟩

/-- C7: `restore_defaults` reloads only the currently selected preset from
its original filename (`add_config` with overwrite) and then sets the
widgets from the reloaded preset; every other named preset is unchanged.
Stated under the assumption that the file still holds a preset of the
currently selected name. -/
theorem C7_restore_defaults_frame {S R : Type}
    (fs : String → String × UnscaledTrackerConfig)
    (st st' : PluginState S R)
    (hok : restore_defaults fs st = .ok st')
    (hname : (fs (st.all_configs.get st.all_configs.current_config).filename).1
        = st.all_configs.current_config) :
    (∀ name, name ≠ st.all_configs.current_config →
      st'.all_configs.configs.lookup name = st.all_configs.configs.lookup name) ∧
    st'.all_configs.configs.lookup st.all_configs.current_config
      = some { (fs (st.all_configs.get st.all_configs.current_config).filename).2 with
          filename := (st.all_configs.get st.all_configs.current_config).filename } ∧
    st'.widget
      = (update_widgets_from_config
          (st'.all_configs.get st.all_configs.current_config) st.widget).2 := by
  by_cases hc : (fs (st.all_configs.get st.all_configs.current_config).filename).1
      ∈ st.all_configs.keys
  · simp only [restore_defaults, TrackerConfigs.add_config, if_pos hc, if_pos] at hok
    cases hok
    rw [hname] at hc
    refine ⟨?_, ?_, rfl⟩
    · intro name hne
      rw [hname]
      exact lookup_map_set_other _ _ _ _ hne
    · rw [hname]
      exact lookup_map_set_self _ _ _ hc
  · simp only [restore_defaults, TrackerConfigs.add_config, if_neg hc] at hok
    cases hok
    rw [hname] at hc
    refine ⟨?_, ?_, rfl⟩
    · intro name hne
      have hsingle : ∀ cfg : UnscaledTrackerConfig,
          List.lookup name [(st.all_configs.current_config, cfg)] = none := fun cfg => by
        simp [List.lookup_cons, beq_eq_false_iff_ne.mpr hne]
      rw [hname, List.lookup_append, hsingle, Option.or_none]
    · rw [hname, List.lookup_append,
        lookup_eq_none_of_not_mem_keys _ _ hc]
      simp [List.lookup_cons]

def sampleFsCell : String → String × UnscaledTrackerConfig :=
  fun _ => ("cell", sampleConfigCanonical)

def restoredSample : PluginState Unit Unit :=
  (restore_defaults sampleFsCell sampleState).toOption.getD sampleState

/-- Witness for C7 at concrete inputs: restoring defaults leaves a preset of
another name untouched and syncs the widgets from the reloaded preset. -/
theorem C7_witness :
    restoredSample.all_configs.configs.lookup "particle"
      = sampleState.all_configs.configs.lookup "particle" ∧
    restoredSample.widget
      = (update_widgets_from_config
          (restoredSample.all_configs.get sampleState.all_configs.current_config)
          sampleState.widget).2 :=
  ⟨(C7_restore_defaults_frame sampleFsCell sampleState restoredSample rfl rfl).1
      "particle" (by decide),
   (C7_restore_defaults_frame sampleFsCell sampleState restoredSample rfl rfl).2.2⟩
